import Mathlib

/-!
Verification of the `DataFrame` core of `src/df.rs` (a thin columnar table
container over arrow2 arrays and the arrow IPC streaming format).

The embedding keeps the source's structure: `DataFrame` holds parallel
`fields`/`data` vectors and a row count; methods that take `&mut self` in Rust
are state-passing functions returning the `Result` together with the post-state
frame, so that "the table is unchanged on failure" is expressible.
-/

set_option autoImplicit false

namespace ArrowDf

/-- Modelled from the spec: the crate-level error taxonomy (§7); the `Error`
enumeration itself lives outside `df.rs`. -/
inductive Error where
  | RowsNotMatch
  | OutOfBounds
  | NotFound (name : String)
  | TypeMismatch
deriving DecidableEq, Repr

/-- arrow2 `TimeUnit`. -/
inductive TimeUnit where
  | Second
  | Millisecond
  | Microsecond
  | Nanosecond
deriving DecidableEq, Repr

/-- arrow2 `DataType` tags, restricted to the tags `df.rs` mentions: the `size`
match arms, the coercion targets, both text variants and timestamps. -/
inductive DataType where
  | Boolean
  | Int16
  | Int32
  | Int64
  | Float32
  | Float64
  | Utf8
  | LargeUtf8
  | Timestamp (unit : TimeUnit) (tz : Option String)
deriving DecidableEq, Repr

/-- Modelled from the spec: 64-bit float payloads of the external column arrays
(number handling is a consumed interface, §1/§6), represented exactly over ℚ
for the finite decimal values the operations exercise. -/
abbrev F64 := Rat

/-- A column array (arrow2 `Box<dyn Array>`): a typed, nullable, length-bearing
sequence, restricted to the concrete array types `df.rs` constructs or
downcasts to. `utf8` is `Utf8Array<i32>` (the default text array), `largeUtf8`
is `Utf8Array<i64>` (the wide-offset text array). -/
inductive Series where
  | boolean (vals : List (Option Bool))
  | int64 (vals : List (Option Int))
  | float64 (vals : List (Option F64))
  | utf8 (vals : List (Option String))
  | largeUtf8 (vals : List (Option String))
deriving DecidableEq, Repr

/-- `Array::len`. -/
def Series.len : Series → Nat
  | .boolean vals => vals.length
  | .int64 vals => vals.length
  | .float64 vals => vals.length
  | .utf8 vals => vals.length
  | .largeUtf8 vals => vals.length

/-- `Array::data_type`: the run-time type tag of a concrete array. -/
def Series.data_type : Series → DataType
  | .boolean _ => .Boolean
  | .int64 _ => .Int64
  | .float64 _ => .Float64
  | .utf8 _ => .Utf8
  | .largeUtf8 _ => .LargeUtf8

/-- `Array::sliced(offset, length)`: the sub-range `[offset, offset+length)` of
the column (call sites bound-check first). -/
def Series.sliced : Series → Nat → Nat → Series
  | .boolean vals, o, l => .boolean ((vals.drop o).take l)
  | .int64 vals, o, l => .int64 ((vals.drop o).take l)
  | .float64 vals, o, l => .float64 ((vals.drop o).take l)
  | .utf8 vals, o, l => .utf8 ((vals.drop o).take l)
  | .largeUtf8 vals, o, l => .largeUtf8 ((vals.drop o).take l)

/-- arrow2 `Field`: per-column metadata, built by `Field::new(name, data_type,
is_nullable)`. -/
structure Field where
  name : String
  data_type : DataType
  nullable : Bool
deriving DecidableEq, Repr

/-- `Field::new`. -/
def Field.new (name : String) (data_type : DataType) (nullable : Bool) : Field :=
  ⟨name, data_type, nullable⟩

/-- The string-keyed metadata map of an arrow2 `Schema` / IPC stream. -/
abbrev Metadata := List (String × String)

/-- arrow2 `Schema`: ordered fields plus free-form metadata. -/
structure Schema where
  fields : List Field
  metadata : Metadata
deriving DecidableEq, Repr

/-- The base data frame of `df.rs`: parallel field descriptors and column
arrays plus one row count. -/
structure DataFrame where
  fields : List Field
  data : List Series
  rows : Nat
deriving DecidableEq, Repr

/-- `DataFrame::new`: fixed row count, no columns (the capacity hint has no
observable effect). -/
def DataFrame.new (rows : Nat) (_cols : Option Nat) : DataFrame :=
  ⟨[], [], rows⟩

/-- `DataFrame::new0`. -/
def DataFrame.new0 (rows : Nat) : DataFrame :=
  DataFrame.new rows none

/-- `DataFrame::from_parts`: every column after the first must have the first
column's length, else `RowsNotMatch`; the row count is the first column's
length, `0` when there are no columns. -/
def DataFrame.from_parts (fields : List Field) (data : List Series) :
    Except Error DataFrame :=
  match data with
  | [] => Except.ok ⟨fields, [], 0⟩
  | c0 :: rest =>
      if rest.all (fun s => s.len == c0.len) then
        Except.ok ⟨fields, c0 :: rest, c0.len⟩
      else
        Except.error Error.RowsNotMatch

/-- `DataFrame::into_parts`. -/
def DataFrame.into_parts (df : DataFrame) : List Field × List Series :=
  (df.fields, df.data)

/-- `DataFrame::is_empty`: no columns (not: no rows). -/
def DataFrame.is_empty (df : DataFrame) : Bool :=
  df.data.isEmpty

/-- `DataFrame::names`. -/
def DataFrame.names (df : DataFrame) : List String :=
  df.fields.map Field.name

/-- `DataFrame::add_series`: appends a `(field, column)` pair when the column's
length equals the row count; `RowsNotMatch` (frame untouched) otherwise. -/
def DataFrame.add_series (df : DataFrame) (name : String) (series : Series)
    (data_type : DataType) : Except Error Unit × DataFrame :=
  if series.len = df.rows then
    (Except.ok (),
      { df with
          fields := df.fields ++ [Field.new name data_type true]
          data := df.data ++ [series] })
  else
    (Except.error Error.RowsNotMatch, df)

/-- `DataFrame::add_series0`: `add_series` with the column's own run-time type
tag. -/
def DataFrame.add_series0 (df : DataFrame) (name : String) (series : Series) :
    Except Error Unit × DataFrame :=
  df.add_series name series series.data_type

/-- `DataFrame::try_sliced`: a new frame with cloned fields, every column
sub-ranged to `[offset, offset+length)` and `rows = length`; `OutOfBounds`
when `offset + length > rows`. -/
def DataFrame.try_sliced (df : DataFrame) (offset length : Nat) :
    Except Error DataFrame :=
  if offset + length ≤ df.rows then
    Except.ok ⟨df.fields, df.data.map (fun d => d.sliced offset length), length⟩
  else
    Except.error Error.OutOfBounds

/-- `DataFrame::get_column_index`: position of the first field with the given
name. -/
def DataFrame.get_column_index (df : DataFrame) (name : String) : Option Nat :=
  df.fields.findIdx? (fun f => f.name == name)

/-- `Vec::swap(i, j)`; an out-of-range index (a panic in Rust) is modelled as a
no-op, and the theorems below stay inside the in-range cases. -/
def listSwap {α : Type} (l : List α) (i j : Nat) : List α :=
  match l.get? i, l.get? j with
  | some a, some b => (l.set i b).set j a
  | _, _ => l

/-- `DataFrame::set_ordering`: for each `i`, if `names[i]` is the name of some
field at position `pos ≠ i`, swap fields and columns at `(i, pos)`; names not
present are skipped. -/
def DataFrame.set_ordering (df : DataFrame) (names : List String) : DataFrame :=
  names.enum.foldl
    (fun d p =>
      match d.get_column_index p.2 with
      | some pos =>
          if pos ≠ p.1 then
            { d with fields := listSwap d.fields p.1 pos, data := listSwap d.data p.1 pos }
          else d
      | none => d)
    df

/-- Overwrite the type tag of the field at `pos`. Out of range it is a no-op
here; in `convert!` Rust would panic on `fields[pos]` instead, so the coercion
theorems carry the `len(fields) = len(data)` hypothesis that rules the case
out. -/
def setFieldDataType (fields : List Field) (pos : Nat) (data_type : DataType) :
    List Field :=
  match fields.get? pos with
  | some f => fields.set pos { f with data_type := data_type }
  | none => fields

/-- `DataFrame::set_data_type`: overwrite the declared type tag of the first
field matching `name`; `NotFound` otherwise. The column data is not touched. -/
def DataFrame.set_data_type (df : DataFrame) (name : String) (data_type : DataType) :
    Except Error Unit × DataFrame :=
  match df.get_column_index name with
  | some pos => (Except.ok (), { df with fields := setFieldDataType df.fields pos data_type })
  | none => (Except.error (Error.NotFound name), df)

/-- `DataFrame::set_data_type_at`: same, addressed by index; `OutOfBounds` when
`index ≥ len(fields)`. -/
def DataFrame.set_data_type_at (df : DataFrame) (index : Nat) (data_type : DataType) :
    Except Error Unit × DataFrame :=
  match df.fields.get? index with
  | some f =>
      (Except.ok (), { df with fields := df.fields.set index { f with data_type := data_type } })
  | none => (Except.error Error.OutOfBounds, df)

/-- A non-empty run of decimal digits as a number; `none` on an empty run or on
a non-digit character. -/
def parseDigits : List Char → Option Nat
  | [] => none
  | cs => cs.foldlM (fun acc c => if c.isDigit then some (acc * 10 + (c.toNat - 48)) else none) 0

/-- Modelled from the spec: the external signed 64-bit integer string parse
behind `parse_int` (a consumed interface, §1): optional sign, decimal digits,
and the value must fit the signed 64-bit range. -/
def parseI64 (s : String) : Option Int :=
  match s.data with
  | [] => none
  | '-' :: cs => (parseDigits cs).bind (fun n => if (n : Int) ≤ 2 ^ 63 then some (-(n : Int)) else none)
  | '+' :: cs => (parseDigits cs).bind (fun n => if (n : Int) < 2 ^ 63 then some (n : Int) else none)
  | cs => (parseDigits cs).bind (fun n => if (n : Int) < 2 ^ 63 then some (n : Int) else none)

/-- A possibly-empty run of digits (one side of a decimal point). -/
def parseDigits0 : List Char → Option Nat
  | [] => some 0
  | cs => parseDigits cs

/-- Unsigned finite decimal literal: `digits`, `digits.digits`, `digits.` or
`.digits`. -/
def parseF64mag (cs : List Char) : Option F64 :=
  match cs.span (fun c => c != '.') with
  | (intPart, []) => (parseDigits intPart).map (fun n => (n : F64))
  | (intPart, _c :: fracPart) =>
      if intPart.isEmpty && fracPart.isEmpty then none
      else
        (parseDigits0 intPart).bind (fun n =>
          (parseDigits0 fracPart).map (fun m =>
            (n : F64) + (m : F64) / ((10 : F64) ^ fracPart.length)))

/-- Modelled from the spec: the external 64-bit float string parse behind
`parse_float` (a consumed interface, §1), represented exactly over ℚ on signed
finite decimal literals — the fragment the specification exercises; other
float spellings are outside the model and map to `none`. -/
def parseF64 (s : String) : Option F64 :=
  match s.data with
  | [] => none
  | '-' :: cs => (parseF64mag cs).map (fun q => -q)
  | '+' :: cs => parseF64mag cs
  | cs => parseF64mag cs

/-- The per-element transform of the `convert!` loop: a null stays null, and a
present string maps to its parse result — which is null again when the parse
fails. -/
def parseCell {α : Type} (parse : String → Option α) : Option String → Option α
  | some s => parse s
  | none => none

/-- The `convert!` macro of `df.rs`, generic over the target array constructor,
element parse and type tag (`Int64Array`/`i64`-parse/`Int64`, resp.
`Float64Array`/`f64`-parse/`Float64`): fetch the column at `index`
(`OutOfBounds` when absent), downcast it to the wide text array
`Utf8Array<i64>` (`TypeMismatch` on any other run-time type), parse every
element with `parseCell`, then replace the column and overwrite the field's
declared type tag. -/
def DataFrame.convert {α : Type} (df : DataFrame) (index : Nat)
    (parse : String → Option α) (mk : List (Option α) → Series) (dt : DataType) :
    Except Error Unit × DataFrame :=
  match df.data.get? index with
  | some series =>
      match series with
      | .largeUtf8 values =>
          (Except.ok (),
            { df with
                data := df.data.set index (mk (values.map (parseCell parse)))
                fields := setFieldDataType df.fields index dt })
      | _ => (Except.error Error.TypeMismatch, df)
  | none => (Except.error Error.OutOfBounds, df)

/-- `DataFrame::parse_int_at`. -/
def DataFrame.parse_int_at (df : DataFrame) (index : Nat) :
    Except Error Unit × DataFrame :=
  df.convert index parseI64 Series.int64 DataType.Int64

/-- `DataFrame::parse_float_at`. -/
def DataFrame.parse_float_at (df : DataFrame) (index : Nat) :
    Except Error Unit × DataFrame :=
  df.convert index parseF64 Series.float64 DataType.Float64

/-- `DataFrame::parse_int`: resolve the name to the first matching index, then
delegate; `NotFound` when no field matches. -/
def DataFrame.parse_int (df : DataFrame) (name : String) :
    Except Error Unit × DataFrame :=
  match df.get_column_index name with
  | some pos => df.parse_int_at pos
  | none => (Except.error (Error.NotFound name), df)

/-- `DataFrame::parse_float`. -/
def DataFrame.parse_float (df : DataFrame) (name : String) :
    Except Error Unit × DataFrame :=
  match df.get_column_index name with
  | some pos => df.parse_float_at pos
  | none => (Except.error (Error.NotFound name), df)

/-- `DataFrame::schema`: `Schema::from(fields)`, carrying no extra metadata. -/
def DataFrame.schema (df : DataFrame) : Schema :=
  ⟨df.fields, []⟩

/-- One state of the arrow2 IPC stream reader: `Waiting` (block not yet
complete) or a materialized data chunk. -/
inductive StreamState where
  | waiting
  | chunk (data : List Series)
deriving DecidableEq, Repr

/-- Modelled from the spec: the external streaming binary container (§3/§6) as
the codec's reader and writer expose it — one schema block with its metadata
map, then a sequence of reader states, then the terminator (the end of the
list). Malformed-byte codec errors are outside the model. -/
structure IPCStream where
  schema : Schema
  states : List StreamState
deriving DecidableEq, Repr

/-- `DataFrame::into_ipc_block`: start the stream with the frame's schema (no
dictionaries, no extra metadata), write all columns as a single chunk, finish.
The in-memory writer of the model does not fail. -/
def DataFrame.into_ipc_block (df : DataFrame) : IPCStream :=
  ⟨df.schema, [StreamState.chunk df.data]⟩

/-- The reader loop of `from_ipc_block`: skip `Waiting`, materialize the first
chunk (row count = first column's length, `0` if no columns), ignore the rest;
an exhausted stream yields the empty zero-row, zero-column frame. -/
def fromIpcLoop (fields : List Field) (metadata : Metadata) :
    List StreamState → DataFrame × Metadata
  | [] => (DataFrame.new0 0, metadata)
  | StreamState.waiting :: rest => fromIpcLoop fields metadata rest
  | StreamState.chunk data :: _ =>
      (⟨fields, data, (data.head?.map Series.len).getD 0⟩, metadata)

/-- `DataFrame::from_ipc_block`: read the stream metadata (schema fields +
metadata map), then run the reader loop. -/
def DataFrame.from_ipc_block (stream : IPCStream) : DataFrame × Metadata :=
  fromIpcLoop stream.schema.fields stream.schema.metadata stream.states

/-! ## Theorems -/

/-- The IPC reader loop ignores a prefix of `Waiting` states. -/
theorem fromIpcLoop_skip_waiting (fields : List Field) (metadata : Metadata)
    (pre rest : List StreamState) (h : ∀ st ∈ pre, st = StreamState.waiting) :
    fromIpcLoop fields metadata (pre ++ rest) = fromIpcLoop fields metadata rest := by
  induction pre with
  | nil => rfl
  | cons st pre ih =>
    have hst := h st (List.mem_cons_self st pre)
    subst hst
    simpa [fromIpcLoop] using ih (fun s hs => h s (List.mem_cons_of_mem _ hs))

/-- The second component of an `enumFrom` member is a member of the list. -/
theorem snd_mem_of_mem_enumFrom {α : Type} {p : Nat × α} :
    ∀ (n : Nat) (l : List α), p ∈ l.enumFrom n → p.2 ∈ l := by
  intro n l
  induction l generalizing n with
  | nil => intro h; cases h
  | cons a t ih =>
    intro h
    simp only [List.enumFrom] at h
    rcases List.mem_cons.mp h with h1 | h2
    · rw [h1]; exact List.mem_cons_self a t
    · exact List.mem_cons_of_mem a (ih (n + 1) h2)

/-- C1 counterexample: `from_parts` accepts a fields vector and a columns
vector of different lengths — with zero fields and one column it returns a
table (with `len(fields) = 0 ≠ 1 = len(columns)`), so it does not validate
invariant I1. -/
theorem C1_from_parts_counterexample :
    DataFrame.from_parts [] [Series.int64 [some 1]] =
      Except.ok (⟨[], [Series.int64 [some 1]], 1⟩ : DataFrame) ∧
    ([] : List Field).length ≠ [Series.int64 [some 1]].length := by
  exact ⟨rfl, by decide⟩

/-- C1 (amended): `from_parts(fields, columns)` does not compare
`len(fields)` with `len(columns)` (invariant I1 is not validated); it fails
with the `RowsNotMatch` error exactly when some later column's length
disagrees with the first column's, and otherwise returns the table with the
given fields and columns and with row count the first column's length (`0`
when there are no columns). -/
theorem C1_from_parts (fields : List Field) (data : List Series) :
    (DataFrame.from_parts fields data = Except.error Error.RowsNotMatch ↔
      ∃ c0 rest, data = c0 :: rest ∧ ∃ s ∈ rest, s.len ≠ c0.len) ∧
    (∀ c0 rest, data = c0 :: rest → (∀ s ∈ rest, s.len = c0.len) →
      DataFrame.from_parts fields data = Except.ok ⟨fields, data, c0.len⟩) ∧
    (data = [] → DataFrame.from_parts fields data = Except.ok ⟨fields, [], 0⟩) := by
  refine ⟨?_, ?_, ?_⟩
  · cases data with
    | nil => simp [DataFrame.from_parts]
    | cons c0 rest =>
      simp only [DataFrame.from_parts]
      by_cases hall : rest.all (fun s => s.len == c0.len)
      · simp only [hall, if_pos]
        constructor
        · intro h; exact absurd h (by simp)
        · rintro ⟨c0', rest', heq, s, hs, hne⟩
          obtain ⟨h1, h2⟩ := List.cons.inj heq
          subst h1; subst h2
          exact absurd (by simpa using (List.all_eq_true.mp hall) s hs) hne
      · simp only [hall, if_neg, not_false_iff]
        constructor
        · intro _
          refine ⟨c0, rest, rfl, ?_⟩
          by_contra hc
          push_neg at hc
          exact hall (List.all_eq_true.mpr (fun s hs => by simpa using hc s hs))
        · intro _; rfl
  · rintro c0 rest rfl hall
    simp only [DataFrame.from_parts]
    rw [if_pos (List.all_eq_true.mpr (fun s hs => by simpa using hall s hs))]
  · rintro rfl; rfl

/-- C1 witness for the amended theorem's hypotheses. -/
theorem C1_from_parts_witness :
    DataFrame.from_parts [Field.new "a" DataType.Int64 true]
        [Series.int64 [some 1], Series.int64 [some 2]] =
      Except.ok ⟨[Field.new "a" DataType.Int64 true],
        [Series.int64 [some 1], Series.int64 [some 2]], 1⟩ :=
  (C1_from_parts [Field.new "a" DataType.Int64 true]
      [Series.int64 [some 1], Series.int64 [some 2]]).2.1
    (Series.int64 [some 1]) [Series.int64 [some 2]] rfl (by decide)

/-- C4: when the column's length equals the table's row count, `add_series`
succeeds, appending the `(field, column)` pair at the end with no
duplicate-name check (the name is unconstrained), and the row count afterwards
equals the column's length; when the lengths differ it fails with
`RowsNotMatch` and the table — fields, columns and row count — is unchanged. -/
theorem C4_add_series (df : DataFrame) (name : String) (series : Series)
    (dt : DataType) :
    (series.len = df.rows →
      df.add_series name series dt =
        (Except.ok (),
          ⟨df.fields ++ [Field.new name dt true], df.data ++ [series], df.rows⟩) ∧
      (df.add_series name series dt).2.rows = series.len) ∧
    (series.len ≠ df.rows →
      df.add_series name series dt = (Except.error Error.RowsNotMatch, df)) := by
  constructor
  · intro h
    constructor
    · simp [DataFrame.add_series, h]
    · simp [DataFrame.add_series, h]
  · intro h
    simp [DataFrame.add_series, h]

/-- C4 witness: a matching-length column is appended; a mismatched one is
rejected with the table unchanged. -/
theorem C4_add_series_witness :
    DataFrame.add_series ⟨[], [], 2⟩ "x" (Series.int64 [some 5, none])
        DataType.Int64 =
      (Except.ok (),
        ⟨[Field.new "x" DataType.Int64 true], [Series.int64 [some 5, none]], 2⟩) ∧
    DataFrame.add_series ⟨[], [], 2⟩ "x" (Series.int64 [some 5]) DataType.Int64 =
      (Except.error Error.RowsNotMatch, ⟨[], [], 2⟩) := by
  constructor
  · have h := ((C4_add_series ⟨[], [], 2⟩ "x" (Series.int64 [some 5, none])
        DataType.Int64).1 (by decide)).1
    simpa using h
  · exact (C4_add_series ⟨[], [], 2⟩ "x" (Series.int64 [some 5])
      DataType.Int64).2 (by decide)

/-- C5: with `offset + length ≤ rows`, `try_sliced` returns a new table with
row count `length`, the field descriptors of the original, and every column
sub-ranged to `[offset, offset+length)`; with `offset + length > rows` it
fails with `OutOfBounds`. -/
theorem C5_try_sliced (df : DataFrame) (offset length : Nat) :
    (offset + length ≤ df.rows →
      df.try_sliced offset length =
        Except.ok ⟨df.fields, df.data.map (fun d => d.sliced offset length), length⟩) ∧
    (df.rows < offset + length →
      df.try_sliced offset length = Except.error Error.OutOfBounds) := by
  constructor
  · intro h; simp [DataFrame.try_sliced, h]
  · intro h; simp [DataFrame.try_sliced, Nat.not_le.mpr h]

/-- C5 witness: slicing rows `[1, 3)` out of a 4-row column, and the
out-of-bounds failure at `offset + length = 5 > 4`. -/
theorem C5_try_sliced_witness :
    DataFrame.try_sliced
        ⟨[Field.new "a" DataType.Int64 true],
         [Series.int64 [some 0, some 1, some 2, some 3]], 4⟩ 1 2 =
      Except.ok ⟨[Field.new "a" DataType.Int64 true],
        [Series.int64 [some 1, some 2]], 2⟩ ∧
    DataFrame.try_sliced
        ⟨[Field.new "a" DataType.Int64 true],
         [Series.int64 [some 0, some 1, some 2, some 3]], 4⟩ 2 3 =
      Except.error Error.OutOfBounds := by
  constructor
  · have h := (C5_try_sliced
        ⟨[Field.new "a" DataType.Int64 true],
         [Series.int64 [some 0, some 1, some 2, some 3]], 4⟩ 1 2).1 (by decide)
    rw [h]; rfl
  · exact (C5_try_sliced
      ⟨[Field.new "a" DataType.Int64 true],
       [Series.int64 [some 0, some 1, some 2, some 3]], 4⟩ 2 3).2 (by decide)

/-- C7: for any fields and columns with all columns of equal length,
`from_parts` succeeds and `into_parts` of the result returns the identical
`(fields, columns)` pair. -/
theorem C7_parts_roundtrip (fields : List Field) (data : List Series)
    (h : ∀ s ∈ data, ∀ t ∈ data, s.len = t.len) :
    ∃ df, DataFrame.from_parts fields data = Except.ok df ∧
      df.into_parts = (fields, data) := by
  cases data with
  | nil => exact ⟨⟨fields, [], 0⟩, rfl, rfl⟩
  | cons c0 rest =>
    refine ⟨⟨fields, c0 :: rest, c0.len⟩, ?_, rfl⟩
    simp only [DataFrame.from_parts]
    rw [if_pos (List.all_eq_true.mpr (fun s hs => by
      simpa using h s (List.mem_cons_of_mem c0 hs) c0 (List.mem_cons_self c0 rest)))]

/-- C7 witness: a two-column frame with equal column lengths round-trips
through `from_parts` / `into_parts`. -/
theorem C7_parts_roundtrip_witness :
    ∃ df, DataFrame.from_parts
        [Field.new "a" DataType.Int64 true, Field.new "b" DataType.Boolean true]
        [Series.int64 [some 1, none], Series.boolean [some true, some false]] =
        Except.ok df ∧
      df.into_parts =
        ([Field.new "a" DataType.Int64 true, Field.new "b" DataType.Boolean true],
         [Series.int64 [some 1, none], Series.boolean [some true, some false]]) :=
  C7_parts_roundtrip _ _ (by decide)

/-- C10: `parse_int_at` and `parse_float_at` at any index at or beyond the
number of columns fail with `OutOfBounds` and leave the table — fields,
columns and row count — unchanged. -/
theorem C10_parse_at_out_of_bounds (df : DataFrame) (index : Nat)
    (h : df.data.length ≤ index) :
    df.parse_int_at index = (Except.error Error.OutOfBounds, df) ∧
    df.parse_float_at index = (Except.error Error.OutOfBounds, df) := by
  have hget : df.data.get? index = none := List.get?_eq_none.mpr h
  constructor
  · simp only [DataFrame.parse_int_at, DataFrame.convert]
    rw [hget]
  · simp only [DataFrame.parse_float_at, DataFrame.convert]
    rw [hget]

/-- C10 witness: index 1 on a one-column table. -/
theorem C10_parse_at_out_of_bounds_witness :
    DataFrame.parse_int_at
        ⟨[Field.new "a" DataType.LargeUtf8 true], [Series.largeUtf8 [some "1"]], 1⟩ 1 =
      (Except.error Error.OutOfBounds,
        ⟨[Field.new "a" DataType.LargeUtf8 true], [Series.largeUtf8 [some "1"]], 1⟩) ∧
    DataFrame.parse_float_at
        ⟨[Field.new "a" DataType.LargeUtf8 true], [Series.largeUtf8 [some "1"]], 1⟩ 1 =
      (Except.error Error.OutOfBounds,
        ⟨[Field.new "a" DataType.LargeUtf8 true], [Series.largeUtf8 [some "1"]], 1⟩) :=
  C10_parse_at_out_of_bounds
    ⟨[Field.new "a" DataType.LargeUtf8 true], [Series.largeUtf8 [some "1"]], 1⟩ 1
    (by decide)

/-- C2 counterexample: a default (32-bit-offset) text column — a text column,
the kind `new_timeseries_from_float_rfc3339` itself builds — makes
`parse_int_at` fail with `TypeMismatch` instead of being parsed: the downcast
in `convert!` accepts only `Utf8Array<i64>`. -/
theorem C2_parse_text_counterexample :
    (DataFrame.parse_int_at
        ⟨[Field.new "a" DataType.Utf8 true],
         [Series.utf8 [some "1", some "x", some "3"]], 3⟩ 0).1 =
      Except.error Error.TypeMismatch ∧
    (Series.utf8 [some "1", some "x", some "3"]).data_type = DataType.Utf8 :=
  ⟨rfl, rfl⟩

/-- C2 (amended): the coercions operate on wide (64-bit-offset) text columns.
At an index holding a `Utf8Array<i64>` column (with the field at that index
present), `parse_int_at` replaces the column in place by a 64-bit-integer
column whose elements are the signed 64-bit-integer parses of the original
strings — nulls and unparsable strings become null — and sets the field's
declared type tag to `Int64`, touching nothing else; `parse_float_at` does the
same with target `Float64`. At an index holding any other run-time type —
including the default 32-bit-offset text array — both fail with `TypeMismatch`
and leave the table unchanged. In particular `["1","x","3"]` parses to
`[1, null, 3]`. -/
theorem C2_parse_at (df : DataFrame) (index : Nat) :
    (∀ vals f, df.data.get? index = some (Series.largeUtf8 vals) →
      df.fields.get? index = some f →
      df.parse_int_at index =
        (Except.ok (),
          ⟨df.fields.set index ⟨f.name, DataType.Int64, f.nullable⟩,
           df.data.set index (Series.int64 (vals.map (parseCell parseI64))),
           df.rows⟩) ∧
      df.parse_float_at index =
        (Except.ok (),
          ⟨df.fields.set index ⟨f.name, DataType.Float64, f.nullable⟩,
           df.data.set index (Series.float64 (vals.map (parseCell parseF64))),
           df.rows⟩)) ∧
    (∀ s, df.data.get? index = some s → (∀ vals, s ≠ Series.largeUtf8 vals) →
      df.parse_int_at index = (Except.error Error.TypeMismatch, df) ∧
      df.parse_float_at index = (Except.error Error.TypeMismatch, df)) := by
  constructor
  · intro vals f hdata hfield
    obtain ⟨fn, fdt, fnl⟩ := f
    constructor
    · simp only [DataFrame.parse_int_at, DataFrame.convert]
      rw [hdata]
      simp only [setFieldDataType]
      rw [hfield]
    · simp only [DataFrame.parse_float_at, DataFrame.convert]
      rw [hdata]
      simp only [setFieldDataType]
      rw [hfield]
  · intro s hdata hne
    cases s with
    | largeUtf8 v => exact absurd rfl (hne v)
    | boolean v =>
      constructor
      · simp only [DataFrame.parse_int_at, DataFrame.convert]; rw [hdata]
      · simp only [DataFrame.parse_float_at, DataFrame.convert]; rw [hdata]
    | int64 v =>
      constructor
      · simp only [DataFrame.parse_int_at, DataFrame.convert]; rw [hdata]
      · simp only [DataFrame.parse_float_at, DataFrame.convert]; rw [hdata]
    | float64 v =>
      constructor
      · simp only [DataFrame.parse_int_at, DataFrame.convert]; rw [hdata]
      · simp only [DataFrame.parse_float_at, DataFrame.convert]; rw [hdata]
    | utf8 v =>
      constructor
      · simp only [DataFrame.parse_int_at, DataFrame.convert]; rw [hdata]
      · simp only [DataFrame.parse_float_at, DataFrame.convert]; rw [hdata]

/-- C2 witness: parsing the wide text column `["1","x","3"]` to integer yields
`[1, null, 3]` with the type tag updated to `Int64`. -/
theorem C2_parse_at_witness :
    DataFrame.parse_int_at
        ⟨[Field.new "t" DataType.LargeUtf8 true],
         [Series.largeUtf8 [some "1", some "x", some "3"]], 3⟩ 0 =
      (Except.ok (),
        ⟨[Field.new "t" DataType.Int64 true],
         [Series.int64 [some 1, none, some 3]], 3⟩) := by
  have h := ((C2_parse_at
      ⟨[Field.new "t" DataType.LargeUtf8 true],
       [Series.largeUtf8 [some "1", some "x", some "3"]], 3⟩ 0).1
      [some "1", some "x", some "3"] (Field.new "t" DataType.LargeUtf8 true)
      rfl rfl).1
  rw [h]; rfl

/-- C3: decoding the stream produced by `into_ipc_block` of a non-empty table
(whose columns all have the table's row count, as every constructor
maintains) yields exactly the original table — same fields (names and type
tags), same row count, element-wise equal columns — together with the empty
metadata map the encoder wrote. -/
theorem C3_ipc_roundtrip (df : DataFrame) (hne : df.data ≠ [])
    (hlen : ∀ s ∈ df.data, s.len = df.rows) :
    DataFrame.from_ipc_block df.into_ipc_block = (df, []) := by
  obtain ⟨flds, dat, r⟩ := df
  simp only [DataFrame.from_ipc_block, DataFrame.into_ipc_block, DataFrame.schema,
    fromIpcLoop]
  cases dat with
  | nil => exact absurd rfl hne
  | cons c0 rest =>
    have hc0 : c0.len = r := hlen c0 (List.mem_cons_self c0 rest)
    simp [hc0]

/-- C3 witness: a one-column, one-row table round-trips. -/
theorem C3_ipc_roundtrip_witness :
    DataFrame.from_ipc_block
        (DataFrame.into_ipc_block
          ⟨[Field.new "a" DataType.Int64 true], [Series.int64 [some 7]], 1⟩) =
      (⟨[Field.new "a" DataType.Int64 true], [Series.int64 [some 7]], 1⟩, []) :=
  C3_ipc_roundtrip ⟨[Field.new "a" DataType.Int64 true], [Series.int64 [some 7]], 1⟩
    (by decide) (by decide)

/-- C6: the decoder skips any prefix of `Waiting` states, materializes exactly
the first data chunk — fields from the schema, row count the first column's
length (`0` with no columns) — ignoring every later state; a stream yielding
no data block decodes to the empty zero-row, zero-column table paired with the
parsed metadata map. -/
theorem C6_from_ipc_block (sch : Schema) :
    (∀ pre chunkData rest, (∀ st ∈ pre, st = StreamState.waiting) →
      DataFrame.from_ipc_block ⟨sch, pre ++ StreamState.chunk chunkData :: rest⟩ =
        (⟨sch.fields, chunkData, (chunkData.head?.map Series.len).getD 0⟩,
          sch.metadata)) ∧
    (∀ states, (∀ st ∈ states, st = StreamState.waiting) →
      DataFrame.from_ipc_block ⟨sch, states⟩ = (⟨[], [], 0⟩, sch.metadata)) := by
  constructor
  · intro pre chunkData rest h
    simp only [DataFrame.from_ipc_block]
    rw [fromIpcLoop_skip_waiting _ _ _ _ h]
    rfl
  · intro states h
    simp only [DataFrame.from_ipc_block]
    rw [← List.append_nil states, fromIpcLoop_skip_waiting _ _ _ _ h]
    rfl

/-- C6 witness: two `Waiting` states, then a chunk, then a further (ignored)
chunk; and an all-`Waiting` stream. -/
theorem C6_from_ipc_block_witness :
    DataFrame.from_ipc_block
        ⟨⟨[Field.new "a" DataType.Int64 true], [("k", "v")]⟩,
         [StreamState.waiting, StreamState.waiting,
          StreamState.chunk [Series.int64 [some 1, some 2]],
          StreamState.chunk [Series.int64 [some 9]]]⟩ =
      (⟨[Field.new "a" DataType.Int64 true], [Series.int64 [some 1, some 2]], 2⟩,
        [("k", "v")]) ∧
    DataFrame.from_ipc_block
        ⟨⟨[Field.new "a" DataType.Int64 true], [("k", "v")]⟩,
         [StreamState.waiting]⟩ =
      (⟨[], [], 0⟩, [("k", "v")]) := by
  constructor
  · have h := (C6_from_ipc_block
        ⟨[Field.new "a" DataType.Int64 true], [("k", "v")]⟩).1
      [StreamState.waiting, StreamState.waiting]
      [Series.int64 [some 1, some 2]]
      [StreamState.chunk [Series.int64 [some 9]]]
      (by intro st hst; simpa using hst)
    simpa using h
  · exact (C6_from_ipc_block ⟨[Field.new "a" DataType.Int64 true], [("k", "v")]⟩).2
      [StreamState.waiting] (by intro st hst; simpa using hst)

/-- C8: `set_ordering` walks the given names in order and swaps the field and
the column at `(i, position of names[i])` whenever the name is found at a
position other than `i`, silently skipping absent names; on a table with
fields named `a`, `b`, `c` (in that order), `set_ordering ["b", "a"]` yields
the order `b`, `a`, `c` with the columns swapped alongside. -/
theorem C8_set_ordering :
    (∀ (ta tb tc : DataType) (na nb nc : Bool) (da db dc : Series) (r : Nat),
      DataFrame.set_ordering
          ⟨[⟨"a", ta, na⟩, ⟨"b", tb, nb⟩, ⟨"c", tc, nc⟩], [da, db, dc], r⟩
          ["b", "a"] =
        ⟨[⟨"b", tb, nb⟩, ⟨"a", ta, na⟩, ⟨"c", tc, nc⟩], [db, da, dc], r⟩) ∧
    (∀ (df : DataFrame) (ns : List String),
      (∀ n ∈ ns, df.get_column_index n = none) → df.set_ordering ns = df) := by
  constructor
  · intro ta tb tc na nb nc da db dc r
    rfl
  · intro df ns h
    have key : ∀ l : List (Nat × String),
        (∀ p ∈ l, df.get_column_index p.2 = none) →
        List.foldl
          (fun d p =>
            match d.get_column_index p.2 with
            | some pos =>
                if pos ≠ p.1 then
                  { d with
                      fields := listSwap d.fields p.1 pos
                      data := listSwap d.data p.1 pos }
                else d
            | none => d)
          df l = df := by
      intro l
      induction l with
      | nil => intro _; rfl
      | cons p t ih =>
        intro hl
        have hp := hl p (List.mem_cons_self p t)
        simp only [List.foldl_cons]
        rw [hp]
        exact ih (fun q hq => hl q (List.mem_cons_of_mem p hq))
    exact key ns.enum (fun p hp => h p.2 (snd_mem_of_mem_enumFrom 0 ns hp))

/-- C8 witness: the `[a,b,c]`-to-`[b,a,c]` example on a concrete table, and
skipping a name that is not present. -/
theorem C8_set_ordering_witness :
    DataFrame.set_ordering
        ⟨[⟨"a", DataType.Int64, true⟩, ⟨"b", DataType.Boolean, true⟩,
          ⟨"c", DataType.Utf8, true⟩],
         [Series.int64 [some 1], Series.boolean [some true],
          Series.utf8 [some "s"]], 1⟩ ["b", "a"] =
      ⟨[⟨"b", DataType.Boolean, true⟩, ⟨"a", DataType.Int64, true⟩,
        ⟨"c", DataType.Utf8, true⟩],
       [Series.boolean [some true], Series.int64 [some 1],
        Series.utf8 [some "s"]], 1⟩ ∧
    DataFrame.set_ordering ⟨[⟨"a", DataType.Int64, true⟩],
        [Series.int64 [some 1]], 1⟩ ["zzz"] =
      ⟨[⟨"a", DataType.Int64, true⟩], [Series.int64 [some 1]], 1⟩ := by
  constructor
  · exact C8_set_ordering.1 DataType.Int64 DataType.Boolean DataType.Utf8
      true true true (Series.int64 [some 1]) (Series.boolean [some true])
      (Series.utf8 [some "s"]) 1
  · exact C8_set_ordering.2 ⟨[⟨"a", DataType.Int64, true⟩],
      [Series.int64 [some 1]], 1⟩ ["zzz"] (by decide)

/-- C9: when the name (resp. the index) resolves to a field, `set_data_type`
(resp. `set_data_type_at`) succeeds and overwrites only that field's declared
type tag — its name and nullable flag, every other field, all column data and
the row count are unchanged — and nothing about the addressed column's actual
run-time type is inspected or validated. -/
theorem C9_set_data_type (df : DataFrame) (name : String) (index : Nat)
    (dt : DataType) :
    (∀ pos f, df.get_column_index name = some pos → df.fields.get? pos = some f →
      df.set_data_type name dt =
        (Except.ok (),
          ⟨df.fields.set pos ⟨f.name, dt, f.nullable⟩, df.data, df.rows⟩)) ∧
    (∀ f, df.fields.get? index = some f →
      df.set_data_type_at index dt =
        (Except.ok (),
          ⟨df.fields.set index ⟨f.name, dt, f.nullable⟩, df.data, df.rows⟩)) := by
  constructor
  · intro pos f hpos hf
    obtain ⟨fn, fdt, fnl⟩ := f
    simp only [DataFrame.set_data_type]
    rw [hpos]
    simp only [setFieldDataType]
    rw [hf]
  · intro f hf
    obtain ⟨fn, fdt, fnl⟩ := f
    simp only [DataFrame.set_data_type_at]
    rw [hf]

/-- C9 witness: retagging an `Int64`-tagged boolean column to `Float64` by
name and by index — the column data is untouched and unvalidated. -/
theorem C9_set_data_type_witness :
    DataFrame.set_data_type
        ⟨[Field.new "a" DataType.Int64 true], [Series.boolean [some true]], 1⟩
        "a" DataType.Float64 =
      (Except.ok (),
        ⟨[Field.new "a" DataType.Float64 true], [Series.boolean [some true]], 1⟩) ∧
    DataFrame.set_data_type_at
        ⟨[Field.new "a" DataType.Int64 true], [Series.boolean [some true]], 1⟩
        0 DataType.Float64 =
      (Except.ok (),
        ⟨[Field.new "a" DataType.Float64 true], [Series.boolean [some true]], 1⟩) := by
  constructor
  · exact (C9_set_data_type
      ⟨[Field.new "a" DataType.Int64 true], [Series.boolean [some true]], 1⟩
      "a" 0 DataType.Float64).1 0 (Field.new "a" DataType.Int64 true) rfl rfl
  · exact (C9_set_data_type
      ⟨[Field.new "a" DataType.Int64 true], [Series.boolean [some true]], 1⟩
      "a" 0 DataType.Float64).2 (Field.new "a" DataType.Int64 true) rfl

end ArrowDf
